import Mathlib

/-!
Shallow embedding of the firin-bot control-plane service (src/main.rs).

The program bootstraps a Twitch EventSub conduit (discover-or-create, then
subscribe the configured broadcaster to chat-message events) and serves a
single authenticated control endpoint `POST /session/assign` that reassigns
shard "0" of the conduit to a websocket transport given by the raw request
body.

The upstream Helix API client is modelled as a record of scripted responses
(`Provider`), exactly the operations the program invokes.  Every modelled run
records the provider calls it dispatched (`ProviderCall` trace) and the log
events it emitted (`LogEvent` trace), so that claims about "exactly one
outbound call", "no provider call", "error logged", and so on are statements
about these traces.
-/

namespace ControlPlane

/-- Delivery transport variants, restricted to the two the program constructs:
`Transport::websocket(session_id)` and `Transport::conduit(conduit_id)`. -/
inductive Transport where
  | websocket (session_id : String)
  | conduit (conduit_id : String)
deriving DecidableEq

/-- An EventSub conduit shard: `Shard::new(id, transport)`. -/
structure Shard where
  id : String
  transport : Transport
deriving DecidableEq

/-- A conduit as returned by the provider. -/
structure Conduit where
  id : String
  shard_count : Nat
deriving DecidableEq

/-- A Helix user. -/
structure User where
  id : String
  login : String
deriving DecidableEq

/-- The `channel.chat.message` v1 subscription condition:
`ChannelChatMessageV1::new(broadcaster_user_id, user_id)`. -/
structure ChannelChatMessageV1 where
  broadcaster_user_id : String
  user_id : String
deriving DecidableEq

/-- One outbound RPC dispatched to the provider, recorded with its
arguments. -/
inductive ProviderCall where
  | getAppAccessToken (client_id client_secret : String) (scopes : List String)
  | getConduits
  | createConduit (shard_count : Nat)
  | getUserFromLogin (login : String)
  | getUsersFromLogins (logins : List String)
  | createEventsubSubscription (cond : ChannelChatMessageV1) (transport : Transport)
  | updateConduitShards (conduit_id : String) (shards : List Shard)
deriving DecidableEq

/-- One log event, one constructor per `log::info!` / `log::error!` site in
the source. -/
inductive LogEvent where
  | infoConduits (cs : List Conduit)
  | infoConduit (c : Conduit)
  | infoUsers (us : List User)
  | infoSubscription (info : String)
  | errorSubscription (e : String)
  | infoUpdateOk
  | infoUpdateErr (e : String)
deriving DecidableEq

/-- The black-box provider: scripted responses for the seven upstream
operations the program uses.  A concrete `Provider` value is one possible
behaviour of the upstream API. -/
structure Provider where
  get_app_access_token : String → String → List String → Except String String
  get_conduits : Except String (List Conduit)
  create_conduit : Nat → Except String Conduit
  get_user_from_login : String → Except String (Option User)
  get_users_from_logins : List String → Except String (List User)
  create_eventsub_subscription :
    ChannelChatMessageV1 → Transport → Except String String
  update_conduit_shards : String → List Shard → Except String Unit

/-- The environment-derived configuration, already parsed (env parsing is
outside the modelled core; a missing variable is a fatal startup error before
any of the modelled steps run). -/
structure Config where
  control_port : Nat
  control_hardcoded_token : String
  twitch_client_id : String
  twitch_client_secret : String
  twitch_user_login : String
  twitch_broadcaster_login : String

/-- `struct ControlState` from the source: client handle, app token, conduit
and the shared control secret, assembled once after bootstrap. -/
structure ControlState where
  client : Provider
  app_token : String
  conduit : Conduit
  token : String

/-- The shard count the source requests when it creates a conduit:
`client.helix.create_conduit(1, &app_token)` hardcodes `1`. -/
def desiredShardCount : Nat := 1

/-- The conduit-selection step:
`if let Some(c) = conduits.into_iter().next() { c } else { create_conduit(1)? }`.
Returns the selected (or created) conduit together with the provider calls
this step dispatched. -/
def selectConduit (p : Provider) (conduits : List Conduit) :
    Except String Conduit × List ProviderCall :=
  match conduits with
  | c :: _ => (Except.ok c, [])
  | [] => (p.create_conduit desiredShardCount,
           [ProviderCall.createConduit desiredShardCount])

/-- The per-target subscription loop of `main`: for each broadcaster user,
attempt `create_eventsub_subscription`; `Ok` is logged at info level, `Err`
at error level, and the loop always continues.  Returns the calls dispatched
and the log events emitted, in order. -/
def subscribeLoop (p : Provider) (subscriber_id conduit_id : String) :
    List User → List ProviderCall × List LogEvent
  | [] => ([], [])
  | u :: rest =>
    let cond : ChannelChatMessageV1 :=
      { broadcaster_user_id := u.id, user_id := subscriber_id }
    let t := Transport.conduit conduit_id
    let ev :=
      match p.create_eventsub_subscription cond t with
      | Except.ok info => LogEvent.infoSubscription info
      | Except.error e => LogEvent.errorSubscription e
    let rest' := subscribeLoop p subscriber_id conduit_id rest
    (ProviderCall.createEventsubSubscription cond t :: rest'.1, ev :: rest'.2)

/-- The bootstrap phase of `main`, up to (not including) binding the control
server: acquire the app token, list conduits, select or create one, resolve
the acting user, resolve the broadcaster login(s), create subscriptions.
Fatal steps use `?` in the source and abort with `Except.error`; the result
also carries the provider-call trace and the log trace of the run. -/
def bootstrap (p : Provider) (cfg : Config) :
    Except String ControlState × List ProviderCall × List LogEvent :=
  let c0 : List ProviderCall :=
    [ProviderCall.getAppAccessToken cfg.twitch_client_id cfg.twitch_client_secret []]
  match p.get_app_access_token cfg.twitch_client_id cfg.twitch_client_secret [] with
  | Except.error e => (Except.error e, c0, [])
  | Except.ok app_token =>
    let c1 := c0 ++ [ProviderCall.getConduits]
    match p.get_conduits with
    | Except.error e => (Except.error e, c1, [])
    | Except.ok conduits =>
      let l1 : List LogEvent := [LogEvent.infoConduits conduits]
      let sel := selectConduit p conduits
      let c2 := c1 ++ sel.2
      match sel.1 with
      | Except.error e => (Except.error e, c2, l1)
      | Except.ok conduit =>
        let l2 := l1 ++ [LogEvent.infoConduit conduit]
        let c3 := c2 ++ [ProviderCall.getUserFromLogin cfg.twitch_user_login]
        match p.get_user_from_login cfg.twitch_user_login with
        | Except.error e => (Except.error e, c3, l2)
        | Except.ok none => (Except.error "failed to retrieve my user", c3, l2)
        | Except.ok (some my_user) =>
          let c4 := c3 ++
            [ProviderCall.getUsersFromLogins [cfg.twitch_broadcaster_login]]
          match p.get_users_from_logins [cfg.twitch_broadcaster_login] with
          | Except.error e => (Except.error e, c4, l2)
          | Except.ok broadcaster_users =>
            let l3 := l2 ++ [LogEvent.infoUsers broadcaster_users]
            let loop := subscribeLoop p my_user.id conduit.id broadcaster_users
            (Except.ok
              { client := p, app_token := app_token, conduit := conduit,
                token := cfg.control_hardcoded_token },
             c4 ++ loop.1, l3 ++ loop.2)

/-- The `session_assign` handler.  On a bearer-secret mismatch it answers
HTTP 401 with no provider call and no log; otherwise it builds
`Shard::new("0", Transport::websocket(body))`, dispatches exactly one
`update_conduit_shards` call, logs the result (at info level, whatever it
is), and answers `Ok("Hello world!")`. -/
def session_assign (st : ControlState) (bearer body : String) :
    Except Nat String × List ProviderCall × List LogEvent :=
  if bearer ≠ st.token then
    (Except.error 401, [], [])
  else
    let shard : Shard := { id := "0", transport := Transport.websocket body }
    let r := st.client.update_conduit_shards st.conduit.id [shard]
    let ev :=
      match r with
      | Except.ok _ => LogEvent.infoUpdateOk
      | Except.error e => LogEvent.infoUpdateErr e
    (Except.ok "Hello world!",
     [ProviderCall.updateConduitShards st.conduit.id [shard]], [ev])

/-- An inbound request to `POST /session/assign`: bearer token and raw
body. -/
structure Request where
  bearer : String
  body : String

/-- All requests of a run, each handled with the same shared `ControlState`
(the source shares one `Arc<ControlState>` across handlers). -/
def serveRequests (st : ControlState) :
    List Request → List (Except Nat String × List ProviderCall × List LogEvent)
  | [] => []
  | r :: rs => session_assign st r.bearer r.body :: serveRequests st rs

/-- One handler invocation viewed as a state transformer: the handler only
reads the shared state, so the outgoing state is the incoming one. -/
def handleRequest (st : ControlState) (r : Request) :
    ControlState × (Except Nat String × List ProviderCall × List LogEvent) :=
  (st, session_assign st r.bearer r.body)

/-- The serving phase as an explicit state-threading fold, used to state
frame properties: the state produced by each handler is threaded into the
next one. -/
def runServer (st : ControlState) :
    List Request →
      ControlState × List (Except Nat String × List ProviderCall × List LogEvent)
  | [] => (st, [])
  | r :: rs =>
    let h := handleRequest st r
    let rest := runServer h.1 rs
    (rest.1, h.2 :: rest.2)

/-- The whole process: the bootstrap phase runs to completion first; only if
it succeeds does the control server start and serve requests, each with the
`ControlState` produced by bootstrap.  A fatal bootstrap error means no
request is ever served. -/
def runMain (p : Provider) (cfg : Config) (reqs : List Request) :
    Except String (List (Except Nat String × List ProviderCall × List LogEvent)) :=
  match (bootstrap p cfg).1 with
  | Except.error e => Except.error e
  | Except.ok st => Except.ok (serveRequests st reqs)

/-- Recognizer for conduit-creation calls in a trace. -/
def ProviderCall.isCreateConduit : ProviderCall → Bool
  | ProviderCall.getAppAccessToken _ _ _ => false
  | ProviderCall.getConduits => false
  | ProviderCall.createConduit _ => true
  | ProviderCall.getUserFromLogin _ => false
  | ProviderCall.getUsersFromLogins _ => false
  | ProviderCall.createEventsubSubscription _ _ => false
  | ProviderCall.updateConduitShards _ _ => false

/-- Recognizer for subscription-creation calls in a trace. -/
def ProviderCall.isCreateSub : ProviderCall → Bool
  | ProviderCall.getAppAccessToken _ _ _ => false
  | ProviderCall.getConduits => false
  | ProviderCall.createConduit _ => false
  | ProviderCall.getUserFromLogin _ => false
  | ProviderCall.getUsersFromLogins _ => false
  | ProviderCall.createEventsubSubscription _ _ => true
  | ProviderCall.updateConduitShards _ _ => false

/-- Recognizer for error-level log events (`log::error!` has exactly one
call site in the source, the failed-subscription arm). -/
def LogEvent.isError : LogEvent → Bool
  | LogEvent.infoConduits _ => false
  | LogEvent.infoConduit _ => false
  | LogEvent.infoUsers _ => false
  | LogEvent.infoSubscription _ => false
  | LogEvent.errorSubscription _ => true
  | LogEvent.infoUpdateOk => false
  | LogEvent.infoUpdateErr _ => false

/-- The conduit id an update call targets, `none` for every other call. -/
def callConduitId : ProviderCall → Option String
  | ProviderCall.updateConduitShards cid _ => some cid
  | ProviderCall.getAppAccessToken _ _ _ => none
  | ProviderCall.getConduits => none
  | ProviderCall.createConduit _ => none
  | ProviderCall.getUserFromLogin _ => none
  | ProviderCall.getUsersFromLogins _ => none
  | ProviderCall.createEventsubSubscription _ _ => none

/-! ### Concrete fixtures

Scripted providers and configurations used to instantiate the theorems on
closed inputs. -/

/-- A provider for which every operation succeeds: one existing conduit,
both users resolvable, subscriptions and shard updates accepted. -/
def happyProvider : Provider :=
  { get_app_access_token := fun _ _ _ => Except.ok "tok"
    get_conduits := Except.ok [{ id := "cond1", shard_count := 5 }]
    create_conduit := fun n => Except.ok { id := "condNew", shard_count := n }
    get_user_from_login := fun l => Except.ok (some { id := "u1", login := l })
    get_users_from_logins := fun ls =>
      Except.ok (ls.map fun l => { id := l, login := l })
    create_eventsub_subscription := fun _ _ => Except.ok "sub-created"
    update_conduit_shards := fun _ _ => Except.ok () }

/-- `happyProvider` with no existing conduit, so bootstrap must create
one. -/
def emptyConduitProvider : Provider :=
  { happyProvider with get_conduits := Except.ok [] }

/-- `happyProvider` whose shard-update operation always fails. -/
def failingUpdateProvider : Provider :=
  { happyProvider with update_conduit_shards := fun _ _ => Except.error "boom" }

/-- `happyProvider` whose subscription creation reports a duplicate for
broadcaster id `"alice"` and succeeds otherwise. -/
def dupSubProvider : Provider :=
  { happyProvider with
    create_eventsub_subscription := fun cond _ =>
      if cond.broadcaster_user_id = "alice" then
        Except.error "subscription already exists"
      else Except.ok "sub-created" }

/-- `happyProvider` for which no queried login resolves: the batch user
lookup returns an empty user list (the provider omits unknown logins rather
than failing). -/
def unresolvedLoginProvider : Provider :=
  { happyProvider with get_users_from_logins := fun _ => Except.ok [] }

/-- A concrete parsed configuration. -/
def baseConfig : Config :=
  { control_port := 8080
    control_hardcoded_token := "secret"
    twitch_client_id := "cid"
    twitch_client_secret := "csecret"
    twitch_user_login := "me"
    twitch_broadcaster_login := "alice" }

/-- `baseConfig` pointing at a broadcaster login the provider cannot
resolve. -/
def unresolvedConfig : Config :=
  { baseConfig with twitch_broadcaster_login := "doesnotexist" }

/-- The control state bootstrap builds from `happyProvider` and
`baseConfig`. -/
def happyState : ControlState :=
  { client := happyProvider
    app_token := "tok"
    conduit := { id := "cond1", shard_count := 5 }
    token := "secret" }

/-- A control state over `failingUpdateProvider`. -/
def failingUpdateState : ControlState :=
  { happyState with client := failingUpdateProvider }

/-! ### Helper lemmas about the subscription loop and bootstrap -/

/-- The subscription loop dispatches exactly one subscription-creation call
per broadcaster user, in order, each scoped to (target, self) with the
conduit transport — independent of the outcomes. -/
theorem subscribeLoop_calls (p : Provider) (sid cid : String) (us : List User) :
    (subscribeLoop p sid cid us).1 =
      us.map fun u =>
        ProviderCall.createEventsubSubscription
          { broadcaster_user_id := u.id, user_id := sid }
          (Transport.conduit cid) := by
  induction us with
  | nil => rfl
  | cons u rest ih => simp [subscribeLoop, ih]

/-- Every subscription-creation failure inside the loop leaves an
error-level log entry. -/
theorem subscribeLoop_error_logged (p : Provider) (sid cid : String)
    (us : List User) (u : User) (e : String) (hu : u ∈ us)
    (he : p.create_eventsub_subscription
        { broadcaster_user_id := u.id, user_id := sid }
        (Transport.conduit cid) = Except.error e) :
    LogEvent.errorSubscription e ∈ (subscribeLoop p sid cid us).2 := by
  induction us with
  | nil => cases hu
  | cons v rest ih =>
    rcases List.mem_cons.mp hu with h | h
    · subst h
      simp [subscribeLoop, he]
    · simp only [subscribeLoop, List.mem_cons]
      exact Or.inr (ih h)

/-- Every log event the loop emits is either an info entry for a successful
subscription or an error entry for a failed one, always tied to a user of
the list. -/
theorem subscribeLoop_error_logs_come_from_failures (p : Provider)
    (sid cid : String) (us : List User) (l : LogEvent)
    (hl : l ∈ (subscribeLoop p sid cid us).2) (he : LogEvent.isError l = true) :
    ∃ u e, u ∈ us ∧
      p.create_eventsub_subscription
        { broadcaster_user_id := u.id, user_id := sid }
        (Transport.conduit cid) = Except.error e ∧
      l = LogEvent.errorSubscription e := by
  induction us with
  | nil => cases hl
  | cons v rest ih =>
    simp only [subscribeLoop, List.mem_cons] at hl
    rcases hl with h | h
    · subst h
      cases hc : p.create_eventsub_subscription
          { broadcaster_user_id := v.id, user_id := sid }
          (Transport.conduit cid) with
      | ok info => rw [hc] at he; simp [LogEvent.isError] at he
      | error e =>
        exact ⟨v, e, List.mem_cons_self v rest, hc, rfl⟩
    · obtain ⟨u, e, hu, hce, hle⟩ := ih h
      exact ⟨u, e, List.mem_cons_of_mem v hu, hce, hle⟩

/-- The loop never dispatches a conduit-creation call. -/
theorem subscribeLoop_no_createConduit (p : Provider) (sid cid : String)
    (us : List User) :
    ((subscribeLoop p sid cid us).1).countP ProviderCall.isCreateConduit = 0 := by
  induction us with
  | nil => rfl
  | cons u rest ih =>
    simp [subscribeLoop, List.countP_cons, ProviderCall.isCreateConduit, ih]

/-- Closed form of a fully successful bootstrap run: the resulting state,
the dispatched calls and the emitted logs. -/
theorem bootstrap_eq_of_ok (p : Provider) (cfg : Config) (tok : String)
    (conduits : List Conduit) (conduit : Conduit) (my_user : User)
    (users : List User)
    (h0 : p.get_app_access_token cfg.twitch_client_id cfg.twitch_client_secret []
        = Except.ok tok)
    (h1 : p.get_conduits = Except.ok conduits)
    (h2 : (selectConduit p conduits).1 = Except.ok conduit)
    (h3 : p.get_user_from_login cfg.twitch_user_login = Except.ok (some my_user))
    (h4 : p.get_users_from_logins [cfg.twitch_broadcaster_login]
        = Except.ok users) :
    bootstrap p cfg =
      (Except.ok
        { client := p, app_token := tok, conduit := conduit,
          token := cfg.control_hardcoded_token },
       [ProviderCall.getAppAccessToken cfg.twitch_client_id
          cfg.twitch_client_secret [],
        ProviderCall.getConduits] ++ (selectConduit p conduits).2 ++
       [ProviderCall.getUserFromLogin cfg.twitch_user_login,
        ProviderCall.getUsersFromLogins [cfg.twitch_broadcaster_login]] ++
       (subscribeLoop p my_user.id conduit.id users).1,
       [LogEvent.infoConduits conduits, LogEvent.infoConduit conduit,
        LogEvent.infoUsers users] ++
       (subscribeLoop p my_user.id conduit.id users).2) := by
  simp [bootstrap, h0, h1, h2, h3, h4]

/-- In a run whose fatal steps all succeed, the subscription-creation calls
of the whole bootstrap trace are exactly one per resolved broadcaster user,
in order. -/
theorem bootstrap_createSub_calls (p : Provider) (cfg : Config) (tok : String)
    (conduits : List Conduit) (conduit : Conduit) (my_user : User)
    (users : List User)
    (h0 : p.get_app_access_token cfg.twitch_client_id cfg.twitch_client_secret []
        = Except.ok tok)
    (h1 : p.get_conduits = Except.ok conduits)
    (h2 : (selectConduit p conduits).1 = Except.ok conduit)
    (h3 : p.get_user_from_login cfg.twitch_user_login = Except.ok (some my_user))
    (h4 : p.get_users_from_logins [cfg.twitch_broadcaster_login]
        = Except.ok users) :
    (bootstrap p cfg).2.1.filter ProviderCall.isCreateSub =
      users.map fun u =>
        ProviderCall.createEventsubSubscription
          { broadcaster_user_id := u.id, user_id := my_user.id }
          (Transport.conduit conduit.id) := by
  rw [bootstrap_eq_of_ok p cfg tok conduits conduit my_user users h0 h1 h2 h3 h4]
  have hsel : (selectConduit p conduits).2.filter ProviderCall.isCreateSub = [] := by
    cases conduits <;> simp [selectConduit, ProviderCall.isCreateSub]
  have hloop : ∀ us : List User,
      (us.map fun u => ProviderCall.createEventsubSubscription
        { broadcaster_user_id := u.id, user_id := my_user.id }
        (Transport.conduit conduit.id)).filter ProviderCall.isCreateSub =
      us.map fun u => ProviderCall.createEventsubSubscription
        { broadcaster_user_id := u.id, user_id := my_user.id }
        (Transport.conduit conduit.id) := by
    intro us
    induction us with
    | nil => rfl
    | cons u rest ih => simp [ProviderCall.isCreateSub, ih]
  simp [List.filter_append, hsel, ProviderCall.isCreateSub,
    subscribeLoop_calls, hloop]

/-! ### Theorems about bootstrap -/

/-- C4: when listing conduits returns at least one conduit, bootstrap uses
the first conduit returned and dispatches no conduit-creation call. -/
theorem bootstrap_reuses_existing_conduit (p : Provider) (cfg : Config)
    (c : Conduit) (cs : List Conduit)
    (h : p.get_conduits = Except.ok (c :: cs)) :
    ((bootstrap p cfg).2.1.countP ProviderCall.isCreateConduit = 0) ∧
    (∀ st, (bootstrap p cfg).1 = Except.ok st → st.conduit = c) := by
  cases h0 : p.get_app_access_token cfg.twitch_client_id cfg.twitch_client_secret [] with
  | error e =>
    simp [bootstrap, h0, ProviderCall.isCreateConduit]
  | ok tok =>
    cases h3 : p.get_user_from_login cfg.twitch_user_login with
    | error e =>
      simp [bootstrap, h0, h, h3, selectConduit, ProviderCall.isCreateConduit]
    | ok ou =>
      cases ou with
      | none =>
        simp [bootstrap, h0, h, h3, selectConduit, ProviderCall.isCreateConduit]
      | some my_user =>
        cases h4 : p.get_users_from_logins [cfg.twitch_broadcaster_login] with
        | error e =>
          simp [bootstrap, h0, h, h3, h4, selectConduit,
            ProviderCall.isCreateConduit]
        | ok users =>
          rw [bootstrap_eq_of_ok p cfg tok (c :: cs) c my_user users h0 h
            (by simp [selectConduit]) h3 h4]
          refine ⟨?_, ?_⟩
          · simp [selectConduit, List.countP_append,
              subscribeLoop_no_createConduit, ProviderCall.isCreateConduit]
          · intro st hst
            simp only [Except.ok.injEq] at hst
            subst hst
            rfl

/-- Witness for C4: with one existing conduit the run dispatches no
conduit-creation call. -/
theorem bootstrap_reuses_existing_conduit_witness :
    (happyProvider.get_conduits =
       Except.ok [{ id := "cond1", shard_count := 5 }]) ∧
    ((bootstrap happyProvider baseConfig).2.1.countP
       ProviderCall.isCreateConduit = 0) := by
  refine ⟨rfl, ?_⟩
  exact (bootstrap_reuses_existing_conduit happyProvider baseConfig
    { id := "cond1", shard_count := 5 } [] rfl).1

/-- C5: when listing conduits returns none, bootstrap dispatches exactly one
conduit-creation call, and that call requests `desiredShardCount` shards
(the count the source hardcodes: 1). -/
theorem bootstrap_creates_one_conduit (p : Provider) (cfg : Config) (tok : String)
    (h0 : p.get_app_access_token cfg.twitch_client_id cfg.twitch_client_secret []
        = Except.ok tok)
    (h : p.get_conduits = Except.ok []) :
    ((bootstrap p cfg).2.1.countP ProviderCall.isCreateConduit = 1) ∧
    ProviderCall.createConduit desiredShardCount ∈ (bootstrap p cfg).2.1 := by
  cases hc : p.create_conduit desiredShardCount with
  | error e =>
    simp [bootstrap, h0, h, selectConduit, hc, ProviderCall.isCreateConduit]
  | ok conduit =>
    cases h3 : p.get_user_from_login cfg.twitch_user_login with
    | error e =>
      simp [bootstrap, h0, h, selectConduit, hc, h3, ProviderCall.isCreateConduit]
    | ok ou =>
      cases ou with
      | none =>
        simp [bootstrap, h0, h, selectConduit, hc, h3,
          ProviderCall.isCreateConduit]
      | some my_user =>
        cases h4 : p.get_users_from_logins [cfg.twitch_broadcaster_login] with
        | error e =>
          simp [bootstrap, h0, h, selectConduit, hc, h3, h4,
            ProviderCall.isCreateConduit]
        | ok users =>
          rw [bootstrap_eq_of_ok p cfg tok [] conduit my_user users h0 h
            (by simp [selectConduit, hc]) h3 h4]
          refine ⟨?_, ?_⟩
          · simp [selectConduit, List.countP_append,
              subscribeLoop_no_createConduit, ProviderCall.isCreateConduit]
          · simp [selectConduit]

/-- Witness for C5: with no existing conduit the run dispatches exactly one
conduit-creation call. -/
theorem bootstrap_creates_one_conduit_witness :
    (emptyConduitProvider.get_conduits = Except.ok []) ∧
    ((bootstrap emptyConduitProvider baseConfig).2.1.countP
       ProviderCall.isCreateConduit = 1) := by
  refine ⟨rfl, ?_⟩
  exact (bootstrap_creates_one_conduit emptyConduitProvider baseConfig "tok"
    rfl rfl).1

/-- C6: subscription-creation failures (including duplicates) are non-fatal:
bootstrap still returns a fully initialized state (so the control server
starts), every broadcaster user still gets its own subscription-creation
call, and each failure leaves an error-level log entry. -/
theorem bootstrap_subscription_failures_nonfatal (p : Provider) (cfg : Config)
    (tok : String) (conduits : List Conduit) (conduit : Conduit)
    (my_user : User) (users : List User)
    (h0 : p.get_app_access_token cfg.twitch_client_id cfg.twitch_client_secret []
        = Except.ok tok)
    (h1 : p.get_conduits = Except.ok conduits)
    (h2 : (selectConduit p conduits).1 = Except.ok conduit)
    (h3 : p.get_user_from_login cfg.twitch_user_login = Except.ok (some my_user))
    (h4 : p.get_users_from_logins [cfg.twitch_broadcaster_login]
        = Except.ok users) :
    (bootstrap p cfg).1 =
      Except.ok { client := p, app_token := tok, conduit := conduit,
                  token := cfg.control_hardcoded_token } ∧
    ((bootstrap p cfg).2.1.filter ProviderCall.isCreateSub =
      users.map fun u =>
        ProviderCall.createEventsubSubscription
          { broadcaster_user_id := u.id, user_id := my_user.id }
          (Transport.conduit conduit.id)) ∧
    (∀ u ∈ users, ∀ e,
       p.create_eventsub_subscription
         { broadcaster_user_id := u.id, user_id := my_user.id }
         (Transport.conduit conduit.id) = Except.error e →
       LogEvent.errorSubscription e ∈ (bootstrap p cfg).2.2) := by
  refine ⟨?_, bootstrap_createSub_calls p cfg tok conduits conduit my_user users
    h0 h1 h2 h3 h4, ?_⟩
  · rw [bootstrap_eq_of_ok p cfg tok conduits conduit my_user users h0 h1 h2 h3 h4]
  · intro u hu e he
    rw [bootstrap_eq_of_ok p cfg tok conduits conduit my_user users h0 h1 h2 h3 h4]
    simp only [List.mem_append]
    exact Or.inr (subscribeLoop_error_logged p my_user.id conduit.id users u e hu he)

/-- Witness for C6: a provider that reports a duplicate subscription for the
single broadcaster still yields a completed bootstrap and an error-level log
entry. -/
theorem bootstrap_subscription_failures_nonfatal_witness :
    (bootstrap dupSubProvider baseConfig).1 =
      Except.ok { client := dupSubProvider, app_token := "tok",
                  conduit := { id := "cond1", shard_count := 5 },
                  token := "secret" } ∧
    LogEvent.errorSubscription "subscription already exists" ∈
      (bootstrap dupSubProvider baseConfig).2.2 := by
  have h := bootstrap_subscription_failures_nonfatal dupSubProvider baseConfig
    "tok" [{ id := "cond1", shard_count := 5 }] { id := "cond1", shard_count := 5 }
    { id := "u1", login := "me" } [{ id := "alice", login := "alice" }]
    rfl rfl rfl rfl (by simp [dupSubProvider, happyProvider, baseConfig])
  exact ⟨h.1, h.2.2 { id := "alice", login := "alice" } (by simp)
    "subscription already exists" (by simp [dupSubProvider])⟩

/-- C7 counterexample: with the configured broadcaster login unresolvable —
the provider returns an empty resolved-user list for the batch lookup —
bootstrap completes and the log trace contains no error-level entry at all,
so no error is logged for the unresolved login. -/
theorem bootstrap_unresolved_login_counterexample :
    (unresolvedLoginProvider.get_users_from_logins
       [unresolvedConfig.twitch_broadcaster_login] = Except.ok []) ∧
    (bootstrap unresolvedLoginProvider unresolvedConfig).1 =
      Except.ok { client := unresolvedLoginProvider, app_token := "tok",
                  conduit := { id := "cond1", shard_count := 5 },
                  token := "secret" } ∧
    ((bootstrap unresolvedLoginProvider unresolvedConfig).2.2.countP
       LogEvent.isError = 0) := by
  refine ⟨rfl, ?_, ?_⟩ <;>
    rw [bootstrap_eq_of_ok unresolvedLoginProvider unresolvedConfig "tok"
      [{ id := "cond1", shard_count := 5 }] { id := "cond1", shard_count := 5 }
      { id := "u1", login := "me" } [] rfl rfl rfl rfl rfl] <;> rfl

/-- C7 (amended): when configured target logins fail to resolve — the
provider omits them from the resolved-user list — bootstrap still completes,
dispatches exactly one subscription-creation call per resolved target, and
the process still starts; unresolved logins are skipped silently: every
error-level log entry stems from a subscription-creation failure for a
resolved user, never from an unresolved login. -/
theorem bootstrap_unresolved_logins_skipped_silently (p : Provider)
    (cfg : Config) (tok : String) (conduits : List Conduit) (conduit : Conduit)
    (my_user : User) (users : List User)
    (h0 : p.get_app_access_token cfg.twitch_client_id cfg.twitch_client_secret []
        = Except.ok tok)
    (h1 : p.get_conduits = Except.ok conduits)
    (h2 : (selectConduit p conduits).1 = Except.ok conduit)
    (h3 : p.get_user_from_login cfg.twitch_user_login = Except.ok (some my_user))
    (h4 : p.get_users_from_logins [cfg.twitch_broadcaster_login]
        = Except.ok users) :
    (bootstrap p cfg).1 =
      Except.ok { client := p, app_token := tok, conduit := conduit,
                  token := cfg.control_hardcoded_token } ∧
    ((bootstrap p cfg).2.1.filter ProviderCall.isCreateSub =
      users.map fun u =>
        ProviderCall.createEventsubSubscription
          { broadcaster_user_id := u.id, user_id := my_user.id }
          (Transport.conduit conduit.id)) ∧
    (∀ l ∈ (bootstrap p cfg).2.2, LogEvent.isError l = true →
      ∃ u e, u ∈ users ∧
        p.create_eventsub_subscription
          { broadcaster_user_id := u.id, user_id := my_user.id }
          (Transport.conduit conduit.id) = Except.error e ∧
        l = LogEvent.errorSubscription e) := by
  refine ⟨?_, bootstrap_createSub_calls p cfg tok conduits conduit my_user users
    h0 h1 h2 h3 h4, ?_⟩
  · rw [bootstrap_eq_of_ok p cfg tok conduits conduit my_user users h0 h1 h2 h3 h4]
  · intro l hl he
    rw [bootstrap_eq_of_ok p cfg tok conduits conduit my_user users h0 h1 h2 h3 h4]
      at hl
    rcases List.mem_append.mp hl with hl | hl
    · simp only [List.mem_cons, List.not_mem_nil, or_false] at hl
      rcases hl with h | h | h <;> subst h <;> simp [LogEvent.isError] at he
    · exact subscribeLoop_error_logs_come_from_failures p my_user.id conduit.id
        users l hl he

/-- Witness for the amended C7: with the single configured login
unresolvable, bootstrap dispatches no subscription-creation call at all. -/
theorem bootstrap_unresolved_logins_skipped_silently_witness :
    (bootstrap unresolvedLoginProvider unresolvedConfig).2.1.filter
      ProviderCall.isCreateSub = [] := by
  have h := bootstrap_unresolved_logins_skipped_silently unresolvedLoginProvider
    unresolvedConfig "tok" [{ id := "cond1", shard_count := 5 }]
    { id := "cond1", shard_count := 5 } { id := "u1", login := "me" } []
    rfl rfl rfl rfl rfl
  simpa using h.2.1

/-! ### Theorems about the whole process run -/

/-- C8: the bootstrap phase runs to completion before any request is served:
a fatal bootstrap error makes the whole run fail with that error and no
request is ever served, and after a successful bootstrap every request of
the run is handled with the completed bootstrap state. -/
theorem runMain_bootstrap_before_serving (p : Provider) (cfg : Config)
    (reqs : List Request) :
    (∀ e, (bootstrap p cfg).1 = Except.error e →
       runMain p cfg reqs = Except.error e) ∧
    (∀ st, (bootstrap p cfg).1 = Except.ok st →
       runMain p cfg reqs = Except.ok (serveRequests st reqs)) := by
  constructor <;> intro x hx <;> simp [runMain, hx]

/-- Witness for C8: the happy-path bootstrap state serves the requests. -/
theorem runMain_bootstrap_before_serving_witness :
    runMain happyProvider baseConfig [{ bearer := "secret", body := "wss://x" }] =
      Except.ok (serveRequests happyState
        [{ bearer := "secret", body := "wss://x" }]) :=
  (runMain_bootstrap_before_serving happyProvider baseConfig
    [{ bearer := "secret", body := "wss://x" }]).2 happyState rfl

/-- C9: serving requests never changes the shared control state: threading
it through any request sequence returns it unchanged, every request is
handled with the same state (same client handle, credential, conduit and
secret), and every provider call dispatched while serving targets the one
held conduit identity. -/
theorem runServer_state_frame (st : ControlState) (reqs : List Request) :
    (runServer st reqs).1 = st ∧
    (runServer st reqs).2 = serveRequests st reqs ∧
    (∀ out ∈ (runServer st reqs).2, ∀ c ∈ out.2.1,
       callConduitId c = some st.conduit.id) := by
  induction reqs with
  | nil =>
    refine ⟨rfl, rfl, ?_⟩
    intro out hout
    cases hout
  | cons r rs ih =>
    obtain ⟨ih1, ih2, ih3⟩ := ih
    refine ⟨?_, ?_, ?_⟩
    · simpa [runServer, handleRequest] using ih1
    · simp [runServer, handleRequest, serveRequests, ih2]
    · intro out hout c hc
      simp only [runServer, handleRequest, List.mem_cons] at hout
      rcases hout with h | h
      · subst h
        by_cases hb : r.bearer = st.token
        · simp only [session_assign, hb, ne_eq, not_true_eq_false, if_false,
            ite_false] at hc
          simp only [List.mem_singleton] at hc
          subst hc
          rfl
        · simp [session_assign, hb] at hc
      · exact ih3 out h c hc

/-- Witness for C9 on a one-request run. -/
theorem runServer_state_frame_witness :
    (runServer happyState [{ bearer := "secret", body := "wss://x" }]).1 =
      happyState ∧
    callConduitId (ProviderCall.updateConduitShards "cond1"
      [{ id := "0", transport := Transport.websocket "wss://x" }]) =
      some happyState.conduit.id := by
  have h := runServer_state_frame happyState
    [{ bearer := "secret", body := "wss://x" }]
  refine ⟨h.1, ?_⟩
  exact h.2.2 (session_assign happyState "secret" "wss://x")
    (by simp [runServer, handleRequest])
    (ProviderCall.updateConduitShards "cond1"
      [{ id := "0", transport := Transport.websocket "wss://x" }])
    (by simp [session_assign, happyState])

/-! ### Theorems about the `session_assign` handler -/

/-- C1: an authorized `assignTransport` call with raw body `s` returns the
fixed success response and dispatches exactly one provider call: a
shard-transport update for shard index "0" of the held conduit, whose
transport is the websocket variant wrapping exactly the string `s`. -/
theorem session_assign_authorized_single_update (st : ControlState)
    (bearer s : String) (h : bearer = st.token) :
    session_assign st bearer s =
      (Except.ok "Hello world!",
       [ProviderCall.updateConduitShards st.conduit.id
          [{ id := "0", transport := Transport.websocket s }]],
       [match st.client.update_conduit_shards st.conduit.id
            [{ id := "0", transport := Transport.websocket s }] with
        | Except.ok _ => LogEvent.infoUpdateOk
        | Except.error e => LogEvent.infoUpdateErr e]) := by
  subst h
  simp [session_assign]

/-- Witness for C1: the authorized call with body `"wss://example/session1"`
evaluated on a concrete state. -/
theorem session_assign_authorized_single_update_witness :
    ("secret" = happyState.token) ∧
    session_assign happyState "secret" "wss://example/session1" =
      (Except.ok "Hello world!",
       [ProviderCall.updateConduitShards "cond1"
          [{ id := "0", transport := Transport.websocket "wss://example/session1" }]],
       [LogEvent.infoUpdateOk]) := by
  refine ⟨rfl, ?_⟩
  have h := session_assign_authorized_single_update happyState "secret"
    "wss://example/session1" rfl
  simpa [happyState, happyProvider] using h

/-- C2: an `assignTransport` call whose bearer secret differs from the
configured control secret answers HTTP 401, dispatches zero provider calls
and emits no log event. -/
theorem session_assign_unauthorized_no_call (st : ControlState)
    (bearer body : String) (h : bearer ≠ st.token) :
    session_assign st bearer body = (Except.error 401, [], []) := by
  simp [session_assign, h]

/-- Witness for C2 at a concrete wrong secret. -/
theorem session_assign_unauthorized_no_call_witness :
    ("wrong" ≠ happyState.token) ∧
    session_assign happyState "wrong" "wss://example/session1" =
      (Except.error 401, [], []) :=
  ⟨by decide,
   session_assign_unauthorized_no_call happyState "wrong" "wss://example/session1"
     (by decide)⟩

/-- C3: once authorization passes, the HTTP response is the fixed success
value for every provider behaviour (the update outcome never reaches the
caller and never aborts the handler), and a failed update is logged. -/
theorem session_assign_weak_acknowledgment (st : ControlState)
    (bearer body : String) (h : bearer = st.token) :
    (session_assign st bearer body).1 = Except.ok "Hello world!" ∧
    ∀ e, st.client.update_conduit_shards st.conduit.id
          [{ id := "0", transport := Transport.websocket body }] = Except.error e →
      LogEvent.infoUpdateErr e ∈ (session_assign st bearer body).2.2 := by
  subst h
  refine ⟨by simp [session_assign], ?_⟩
  intro e he
  simp [session_assign, he]

/-- Witness for C3 on a provider whose shard update always fails: the
response is still the fixed success value and the failure is logged. -/
theorem session_assign_weak_acknowledgment_witness :
    (session_assign failingUpdateState "secret" "wss://x").1 =
      Except.ok "Hello world!" ∧
    LogEvent.infoUpdateErr "boom" ∈
      (session_assign failingUpdateState "secret" "wss://x").2.2 := by
  have h := session_assign_weak_acknowledgment failingUpdateState "secret" "wss://x" rfl
  exact ⟨h.1, h.2 "boom" rfl⟩

/-- C10: the body of an authorized call is never validated or parsed: every
string body (empty, non-URL, anything) is accepted, wrapped verbatim into a
websocket transport and dispatched, and the response does not depend on the
body. -/
theorem session_assign_body_opaque (st : ControlState) (bearer b1 b2 : String)
    (h : bearer = st.token) :
    (session_assign st bearer b1).1 = Except.ok "Hello world!" ∧
    (session_assign st bearer b1).2.1 =
      [ProviderCall.updateConduitShards st.conduit.id
        [{ id := "0", transport := Transport.websocket b1 }]] ∧
    (session_assign st bearer b1).1 = (session_assign st bearer b2).1 := by
  subst h
  exact ⟨by simp [session_assign], by simp [session_assign], by simp [session_assign]⟩

/-- Witness for C10 with the empty body and a non-URL body. -/
theorem session_assign_body_opaque_witness :
    (session_assign happyState "secret" "").1 = Except.ok "Hello world!" ∧
    (session_assign happyState "secret" "").2.1 =
      [ProviderCall.updateConduitShards "cond1"
        [{ id := "0", transport := Transport.websocket "" }]] ∧
    (session_assign happyState "secret" "").1 =
      (session_assign happyState "secret" "not a url").1 := by
  have h := session_assign_body_opaque happyState "secret" "" "not a url" rfl
  exact ⟨h.1, by simpa [happyState] using h.2.1, h.2.2⟩

end ControlPlane
